import Mathlib

/-!
Shallow embedding of the drop_worker crate (src/src/lib.rs).

The crate couples a worker thread to a handle: DropWorker::new spawns a
thread running a caller-supplied function over the consumer endpoint of a
fresh std::sync::mpsc channel, the handle derefs to the stored Sender, and
the Drop implementation destroys the stored Sender.  In the source as it
stands, the JoinHandle of the spawned thread is not retained (the field and
the join are commented out): new discards the handle returned by
thread::spawn, and Drop only runs ManuallyDrop::drop on the sender.

The channel transport is std::sync::mpsc (non-crossbeam build); its
documented semantics are modelled by a FIFO buffer together with a count of
live Sender endpoints and the liveness of the Receiver.
-/

/-- Error returned by a non-blocking poll of the consumer endpoint, as in
std::sync::mpsc::TryRecvError: either the channel is momentarily empty, or
every sending endpoint has been destroyed (permanent disconnection). -/
inductive TryRecvError where
  | empty
  | disconnected
deriving DecidableEq

/-- State of one mpsc channel, modelling the std::sync::mpsc transport used
by src/src/lib.rs: a FIFO buffer of values, the number of live Sender
endpoints, and whether the Receiver endpoint is still alive. -/
structure Chan (T : Type) where
  queue : List T
  senders : Nat
  receiverAlive : Bool
deriving DecidableEq

/-- Receiver::try_recv of std::sync::mpsc: dequeue a buffered value when one
exists (buffered values are delivered even after disconnection); otherwise
report Empty while some sender is alive and Disconnected once every sender
has been destroyed. -/
def Chan.try_recv {T : Type} (c : Chan T) : Except TryRecvError T × Chan T :=
  match c.queue with
  | x :: xs => (Except.ok x, { c with queue := xs })
  | [] =>
    if c.senders = 0 then (Except.error TryRecvError.disconnected, c)
    else (Except.error TryRecvError.empty, c)

/-- Sender::send of std::sync::mpsc: enqueue the value while the Receiver is
alive, otherwise fail with a SendError carrying the value back to the
caller; a failed send never delivers and leaves the channel unchanged. -/
def Sender.send {T : Type} (c : Chan T) (v : T) : Except T Unit × Chan T :=
  if c.receiverAlive then (Except.ok (), { c with queue := c.queue ++ [v] })
  else (Except.error v, c)

/-- Control-flow outcome of the try_err macro inside the enclosing worker
function: either the macro executed return (early-return), or execution
falls through and continues.  The outcome carries no data: an item obtained
by the poll is not surfaced to the surrounding code. -/
inductive TryErrOutcome where
  | ret
  | cont
deriving DecidableEq

/-- The try_err macro (src/src/lib.rs lines 60-67): one non-blocking
try_recv on the consumer endpoint; on Err(Disconnected) it executes return,
on Err(Empty) it falls through unchanged, and on Ok(data) the received item
is dropped (the if-let binds no Ok pattern) and execution falls through. -/
def try_err {T : Type} (c : Chan T) : TryErrOutcome × Chan T :=
  match c.try_recv with
  | (Except.error TryRecvError.disconnected, cNext) => (TryErrOutcome.ret, cNext)
  | (Except.error TryRecvError.empty, cNext) => (TryErrOutcome.cont, cNext)
  | (Except.ok _, cNext) => (TryErrOutcome.cont, cNext)

/-- Outcome of one observation of the recv_data macro: yield a received item
to the surrounding code, early-return because the receive resolved as
disconnected, or keep blocking because the channel is empty yet still
connected. -/
inductive RecvDataOutcome (T : Type) where
  | ret
  | data (t : T)
  | blocked
deriving DecidableEq

/-- The recv_data macro (src/src/lib.rs lines 69-80), built on the blocking
Receiver::recv of std::sync::mpsc: a buffered item is yielded unchanged
(also after disconnection); with no buffered item the call resolves as
Err exactly when every sender has been destroyed, upon which the macro
executes return; otherwise the call keeps blocking. -/
def recv_data {T : Type} (c : Chan T) : RecvDataOutcome T × Chan T :=
  match c.queue with
  | x :: xs => (RecvDataOutcome.data x, { c with queue := xs })
  | [] =>
    if c.senders = 0 then (RecvDataOutcome.ret, c)
    else (RecvDataOutcome.blocked, c)

/-- Status of the single worker thread a handle spawns. -/
inductive WorkerPhase where
  | running
  | exited
deriving DecidableEq

/-- Whole-system state of one DropWorker handle (src/src/lib.rs lines
51-56) together with its channel and its worker thread.  handleSenderLive
mirrors the ManuallyDrop slot holding the sender field: true until
ManuallyDrop::drop is executed on it.  handleSenderDropCount counts how many
times a teardown body has destroyed that slot (ghost instrumentation for
double-destruction reasoning).  The struct itself stores only the sender;
the thread JoinHandle field is commented out in the source. -/
structure Sys (T : Type) where
  chan : Chan T
  worker : WorkerPhase
  handleSenderLive : Bool
  handleSenderDropCount : Nat
deriving DecidableEq

/-- DropWorker::new (src/src/lib.rs lines 85-93): creates a fresh channel
pair (empty buffer, exactly one live Sender, live Receiver), wraps the
sender in ManuallyDrop, spawns exactly one thread running func(receiver)
(the receiver is moved into the closure), and discards the JoinHandle
(the binding is let _thread; the thread field of the struct is commented
out), so the returned handle holds only the sender. -/
def DropWorker.new (T : Type) : Sys T :=
  { chan := { queue := [], senders := 1, receiverAlive := true },
    worker := WorkerPhase.running,
    handleSenderLive := true,
    handleSenderDropCount := 0 }

/-- The teardown actions a Drop implementation could perform here. -/
inductive TeardownStep where
  | dropSender
  | joinThread
deriving DecidableEq

/-- Drop for DropWorker (src/src/lib.rs lines 104-113): the body executes
only ManuallyDrop::drop(&mut self.sender), destroying one live Sender; the
join of the worker thread is commented out, so no join step is performed
and the worker thread is left untouched.  Returns the state after the body
and the list of teardown steps actually performed, in order. -/
def DropWorker.drop {T : Type} (s : Sys T) : Sys T × List TeardownStep :=
  ({ s with
      chan := { s.chan with senders := s.chan.senders - 1 },
      handleSenderLive := false,
      handleSenderDropCount := s.handleSenderDropCount + 1 },
   [TeardownStep.dropSender])

/-- State of the system at the moment the Drop body returns to the caller. -/
def dropBody {T : Type} (s : Sys T) : Sys T := (DropWorker.drop s).1

/-- The possible fields of struct DropWorker. -/
inductive DWField where
  | sender
  | thread
deriving DecidableEq

/-- The fields actually declared on struct DropWorker (src/src/lib.rs lines
53-56): only sender (of type ManuallyDrop applied to the Sender); the
thread field of type JoinHandle is commented out. -/
def dropWorkerFields : List DWField := [DWField.sender]

/-- handle.send as observed through Deref for DropWorker (src/src/lib.rs
lines 96-102): deref returns a shared reference to self.sender, ManuallyDrop
derefs further to the stored Sender, and send is invoked on that Sender
directly; the result of Sender::send is passed back with no wrapping. -/
def DropWorker.send {T : Type} (s : Sys T) (v : T) : Except T Unit × Sys T :=
  ((Sender.send s.chan v).1, { s with chan := (Sender.send s.chan v).2 })

/-- One scheduler step of the worker thread running the reactive loop of the
crate example (fn rec: a loop whose body starts with recv_data on the moved
receiver).  When the macro early-returns, the worker function returns, the
thread exits and the Receiver owned by the thread is destroyed. -/
def workerStep {T : Type} (s : Sys T) : Sys T :=
  match s.worker with
  | WorkerPhase.exited => s
  | WorkerPhase.running =>
    match recv_data s.chan with
    | (RecvDataOutcome.ret, cNext) =>
        { s with chan := { cNext with receiverAlive := false },
                 worker := WorkerPhase.exited }
    | (RecvDataOutcome.data _, cNext) => { s with chan := cNext }
    | (RecvDataOutcome.blocked, cNext) => { s with chan := cNext }

/-- Operations available on a live handle before its teardown: sending a
value through the handle (Deref chain down to the stored Sender), cloning
the stored Sender through that same shared reference (Sender is Clone and
the handle has no DerefMut, so only shared access is exposed), and letting
the worker thread run one step. -/
inductive PreDropEvent (T : Type) where
  | send (v : T)
  | cloneSender
  | runWorker
deriving DecidableEq

/-- Effect of one pre-drop operation on the system.  Cloning a Sender adds
one live sending endpoint (std semantics); none of these operations has
mutable access to the sender field of the handle. -/
def applyEvent {T : Type} (s : Sys T) : PreDropEvent T → Sys T
  | PreDropEvent.send v => (DropWorker.send s v).2
  | PreDropEvent.cloneSender =>
      { s with chan := { s.chan with senders := s.chan.senders + 1 } }
  | PreDropEvent.runWorker => workerStep s

/-- Effect of a sequence of pre-drop operations, applied left to right. -/
def applyEvents {T : Type} (s : Sys T) (evs : List (PreDropEvent T)) : Sys T :=
  evs.foldl applyEvent s

/-- Destruction of a cloned Sender endpoint (std semantics: one fewer live
sender; destroying the last one disconnects the channel). -/
def dropClonedSender {T : Type} (c : Chan T) : Chan T :=
  { c with senders := c.senders - 1 }

/- ------------------------------------------------------------------ -/
/- Helper lemmas                                                       -/
/- ------------------------------------------------------------------ -/

/-- No pre-drop operation touches the ManuallyDrop slot of the handle. -/
theorem applyEvent_preserves_handle (s : Sys Nat) (e : PreDropEvent Nat) :
    (applyEvent s e).handleSenderLive = s.handleSenderLive ∧
    (applyEvent s e).handleSenderDropCount = s.handleSenderDropCount := by
  cases e with
  | send v => exact ⟨rfl, rfl⟩
  | cloneSender => exact ⟨rfl, rfl⟩
  | runWorker =>
      simp only [applyEvent, workerStep]
      split
      · exact ⟨rfl, rfl⟩
      · split <;> exact ⟨rfl, rfl⟩

/-- Sequences of pre-drop operations leave the stored sender slot intact. -/
theorem applyEvents_preserves_handle (evs : List (PreDropEvent Nat)) (s : Sys Nat) :
    (applyEvents s evs).handleSenderLive = s.handleSenderLive ∧
    (applyEvents s evs).handleSenderDropCount = s.handleSenderDropCount := by
  induction evs generalizing s with
  | nil => exact ⟨rfl, rfl⟩
  | cons e t ih =>
      have h1 := applyEvent_preserves_handle s e
      have h2 := ih (applyEvent s e)
      exact ⟨h2.1.trans h1.1, h2.2.trans h1.2⟩

/-- On an empty, fully disconnected channel the blocking receive resolves
as disconnected and the macro early-returns. -/
theorem recv_data_ret_of_disconnected (c : Chan Nat)
    (hq : c.queue = []) (hn : c.senders = 0) :
    recv_data c = (RecvDataOutcome.ret, c) := by
  obtain ⟨q, n, r⟩ := c
  simp only at hq hn
  subst hq
  subst hn
  rfl

/- ------------------------------------------------------------------ -/
/- Claims                                                              -/
/- ------------------------------------------------------------------ -/

/-- Claim C1, counterexample: construct a handle and immediately run the
full Drop body with no intervening worker step (a legal preemptive
interleaving).  When the body returns, the sender slot has been destroyed
yet the worker thread is still running, so the claim that after drop returns
the worker thread has fully terminated is false on this execution: the
destruction completes while the worker still exists as a runnable entity. -/
theorem c1_counterexample :
    (dropBody (DropWorker.new Nat)).handleSenderLive = false ∧
    (dropBody (DropWorker.new Nat)).worker = WorkerPhase.running :=
  ⟨rfl, rfl⟩

/-- Claim C1, amended: after the Drop body returns, the producer endpoint of
the handle has been destroyed (one fewer live sender, which is the stop
signal when it was the last), but the worker thread is not joined: its phase
is exactly what it was before the drop, so it may still be running. -/
theorem c1_amended_drop_signals_but_does_not_join (s : Sys Nat) :
    (dropBody s).handleSenderLive = false ∧
    (dropBody s).chan.senders = s.chan.senders - 1 ∧
    (dropBody s).worker = s.worker :=
  ⟨rfl, rfl, rfl⟩

/-- Claim C2, counterexample: on a freshly constructed handle, the Drop body
performs exactly one teardown step, the destruction of the sender; it
contains no join step, so the claimed second mandatory step (blocking until
the worker thread has terminated) is not performed. -/
theorem c2_counterexample :
    (DropWorker.drop (DropWorker.new Nat)).2 = [TeardownStep.dropSender] ∧
    TeardownStep.joinThread ∉ (DropWorker.drop (DropWorker.new Nat)).2 := by
  exact ⟨rfl, by decide⟩

/-- Claim C2, amended: teardown performs exactly one mandatory step, the
destruction of the producer endpoint (forcing disconnection when it was the
last sender); no join step is performed and the calling thread does not
block for the worker, whose phase is unchanged by the drop. -/
theorem c2_amended_teardown_is_single_step (s : Sys Nat) :
    (DropWorker.drop s).2 = [TeardownStep.dropSender] ∧
    TeardownStep.joinThread ∉ (DropWorker.drop s).2 ∧
    (DropWorker.drop s).1.handleSenderLive = false ∧
    (DropWorker.drop s).1.worker = s.worker := by
  refine ⟨rfl, ?_, rfl, rfl⟩
  show TeardownStep.joinThread ∉ [TeardownStep.dropSender]
  decide

/-- Claim C3, counterexample: the struct DropWorker has no thread field (it
is commented out in the source), so the returned handle does not retain the
join token of the spawned thread among its fields. -/
theorem c3_counterexample : DWField.thread ∉ dropWorkerFields := by decide

/-- Claim C3, amended: the constructor creates a fresh channel pair (empty
buffer, exactly one live sender, live receiver), spawns exactly one thread
that runs the worker function on the consumer endpoint, and the returned
handle retains only the producer endpoint (in a live ManuallyDrop slot); the
JoinHandle of the spawned thread is discarded, not stored. -/
theorem c3_amended_new_retains_sender_only :
    (DropWorker.new Nat).chan.queue = [] ∧
    (DropWorker.new Nat).chan.senders = 1 ∧
    (DropWorker.new Nat).chan.receiverAlive = true ∧
    (DropWorker.new Nat).worker = WorkerPhase.running ∧
    (DropWorker.new Nat).handleSenderLive = true ∧
    dropWorkerFields = [DWField.sender] :=
  ⟨rfl, rfl, rfl, rfl, rfl, rfl⟩

/-- Claim C4: the try_err helper performs one non-blocking poll; when the
poll reports permanent disconnection it early-returns from the enclosing
worker function; when it reports an empty-but-connected channel it falls
through with the channel unchanged; when it yields an item, the item is
removed from the channel, discarded, and execution continues. -/
theorem c4_try_err_poll_cases (c : Chan Nat) :
    (c.senders = 0 → c.queue = [] → try_err c = (TryErrOutcome.ret, c)) ∧
    (c.senders ≠ 0 → c.queue = [] → try_err c = (TryErrOutcome.cont, c)) ∧
    (∀ x xs, c.queue = x :: xs →
      try_err c = (TryErrOutcome.cont, { c with queue := xs })) := by
  obtain ⟨q, n, r⟩ := c
  refine ⟨?_, ?_, ?_⟩
  · intro hn hq
    simp only at hn hq
    subst hn
    subst hq
    rfl
  · intro hn hq
    simp only at hn hq
    subst hq
    simp [try_err, Chan.try_recv, hn]
  · intro x xs hq
    simp only at hq
    subst hq
    rfl

/-- Claim C4, witness: on an empty disconnected channel the helper
early-returns. -/
theorem c4_witness :
    try_err ({ queue := [], senders := 0, receiverAlive := true } : Chan Nat) =
      (TryErrOutcome.ret,
        ({ queue := [], senders := 0, receiverAlive := true } : Chan Nat)) :=
  (c4_try_err_poll_cases _).1 rfl rfl

/-- Claim C5: the recv_data helper blocks only while the channel is empty
and still connected; when an item is buffered it yields that item unchanged
to the surrounding code; with the channel empty it early-returns from the
enclosing worker function exactly when the receive resolves as disconnected
(every sender destroyed). -/
theorem c5_recv_data_cases (c : Chan Nat) :
    (∀ x xs, c.queue = x :: xs →
      recv_data c = (RecvDataOutcome.data x, { c with queue := xs })) ∧
    (c.queue = [] → ((recv_data c).1 = RecvDataOutcome.ret ↔ c.senders = 0)) ∧
    ((recv_data c).1 = RecvDataOutcome.blocked ↔ c.queue = [] ∧ c.senders ≠ 0) := by
  obtain ⟨q, n, r⟩ := c
  refine ⟨?_, ?_, ?_⟩
  · intro x xs hq
    simp only at hq
    subst hq
    rfl
  · intro hq
    simp only at hq
    subst hq
    by_cases hn : n = 0 <;> simp [recv_data, hn]
  · cases q with
    | nil => by_cases hn : n = 0 <;> simp [recv_data, hn]
    | cons x xs => simp [recv_data]

/-- Claim C5, witness: with one buffered item the helper yields it
unchanged, and on an empty disconnected channel it early-returns. -/
theorem c5_witness :
    recv_data ({ queue := [5], senders := 1, receiverAlive := true } : Chan Nat) =
      (RecvDataOutcome.data 5,
        ({ queue := [], senders := 1, receiverAlive := true } : Chan Nat)) :=
  (c5_recv_data_cases _).1 5 [] rfl

/-- Claim C6: sending through the handle is exactly Sender::send on the
stored sender, reached through Deref with no additional wrapping; it
succeeds precisely while the consumer endpoint held by the worker thread is
alive, and once that receiver has been dropped it surfaces disconnection as
a typed error carrying the value back, with nothing delivered into the
channel. -/
theorem c6_send_through (s : Sys Nat) (v : Nat) :
    (DropWorker.send s v).1 = (Sender.send s.chan v).1 ∧
    (DropWorker.send s v).2.chan = (Sender.send s.chan v).2 ∧
    ((Sender.send s.chan v).1 = Except.ok () ↔ s.chan.receiverAlive = true) ∧
    (s.chan.receiverAlive = false →
      (Sender.send s.chan v).1 = Except.error v ∧
      (Sender.send s.chan v).2 = s.chan) := by
  refine ⟨rfl, rfl, ?_, ?_⟩
  · by_cases hr : s.chan.receiverAlive <;> simp [Sender.send, hr]
  · intro hr
    simp [Sender.send, hr]

/-- Claim C6, witness: on a system whose worker has exited and dropped its
receiver, sending the value 7 yields the disconnection error carrying 7 and
leaves the channel unchanged. -/
theorem c6_witness :
    (Sender.send
        ({ queue := [], senders := 1, receiverAlive := false } : Chan Nat) 7).1 =
      Except.error 7 :=
  ((c6_send_through
      { chan := { queue := [], senders := 1, receiverAlive := false },
        worker := WorkerPhase.exited,
        handleSenderLive := true,
        handleSenderDropCount := 0 } 7).2.2.2 rfl).1

/-- Claim C7: for a handle holding the only live sender, whose worker runs
the blocking-receive loop, the drop forces the live-sender count to zero; a
subsequent blocking receive on the drained channel resolves as disconnected
(so the macro early-returns and the worker function returns, exiting the
thread), and after the drop no receive can keep blocking, whatever the
buffer contents. -/
theorem c7_disconnect_visibility (s : Sys Nat)
    (h1 : s.chan.senders = 1) (h2 : s.chan.queue = [])
    (h3 : s.worker = WorkerPhase.running) :
    (dropBody s).chan.senders = 0 ∧
    (recv_data (dropBody s).chan).1 = RecvDataOutcome.ret ∧
    (workerStep (dropBody s)).worker = WorkerPhase.exited ∧
    (∀ q : List Nat,
      (recv_data { (dropBody s).chan with queue := q }).1 ≠
        RecvDataOutcome.blocked) := by
  have hs : (dropBody s).chan.senders = 0 := by
    simp [dropBody, DropWorker.drop, h1]
  have hq : (dropBody s).chan.queue = [] := h2
  have hret : recv_data (dropBody s).chan = (RecvDataOutcome.ret, (dropBody s).chan) :=
    recv_data_ret_of_disconnected _ hq hs
  refine ⟨hs, by rw [hret], ?_, ?_⟩
  · have hw : (dropBody s).worker = WorkerPhase.running := h3
    simp [workerStep, hw, hret]
  · intro q
    cases q with
    | nil => simp [recv_data, hs]
    | cons x xs => simp [recv_data]

/-- Claim C7, witness: dropping a freshly constructed handle leaves zero
senders, makes the blocking receive resolve as disconnected, and makes the
worker loop exit on its next step. -/
theorem c7_witness :
    (dropBody (DropWorker.new Nat)).chan.senders = 0 ∧
    (recv_data (dropBody (DropWorker.new Nat)).chan).1 = RecvDataOutcome.ret ∧
    (workerStep (dropBody (DropWorker.new Nat))).worker = WorkerPhase.exited := by
  have h := c7_disconnect_visibility (DropWorker.new Nat) rfl rfl rfl
  exact ⟨h.1, h.2.1, h.2.2.1⟩

/-- Claim C8, counterexample: running the destruction path a second time on
an already-torn-down handle is not a no-op: the body unconditionally
executes ManuallyDrop::drop again, so the ghost destruction count of the
sender slot reaches two (a double destruction of the producer endpoint),
and the second run still emits the dropSender step. -/
theorem c8_counterexample :
    (dropBody (dropBody (DropWorker.new Nat))).handleSenderDropCount = 2 ∧
    (DropWorker.drop (dropBody (DropWorker.new Nat))).2 =
      [TeardownStep.dropSender] :=
  ⟨rfl, rfl⟩

/-- Claim C8, amended: the destruction path carries no guard: every
invocation destroys the producer endpoint again (incrementing the
destruction count), so a second invocation performs a second destruction
rather than a no-op — protection against double-free rests solely on the
language running Drop at most once per instance; a double join is trivially
impossible because teardown never performs a join step at all. -/
theorem c8_amended_teardown_unguarded (s : Sys Nat) :
    (dropBody s).handleSenderDropCount = s.handleSenderDropCount + 1 ∧
    (dropBody s).handleSenderLive = false ∧
    TeardownStep.joinThread ∉ (DropWorker.drop s).2 := by
  refine ⟨rfl, rfl, ?_⟩
  show TeardownStep.joinThread ∉ [TeardownStep.dropSender]
  decide

/-- Claim C9: frame property of the handle: the operations reachable before
drop (send through the handle, cloning the stored sender through the shared
Deref reference, worker steps) never destroy or replace the stored producer
endpoint — after any such sequence starting at construction, the sender slot
is still live and its destruction count is still zero — and within one
execution of the Drop body the sender is destroyed exactly once. -/
theorem c9_sender_frame (evs : List (PreDropEvent Nat)) :
    (applyEvents (DropWorker.new Nat) evs).handleSenderLive = true ∧
    (applyEvents (DropWorker.new Nat) evs).handleSenderDropCount = 0 ∧
    (applyEvents (DropWorker.new Nat) evs |> DropWorker.drop).2.count
        TeardownStep.dropSender = 1 ∧
    (applyEvents (DropWorker.new Nat) evs |> dropBody).handleSenderDropCount = 1 := by
  have h := applyEvents_preserves_handle evs (DropWorker.new Nat)
  have h2 : (applyEvents (DropWorker.new Nat) evs).handleSenderDropCount = 0 :=
    h.2.trans rfl
  refine ⟨h.1, h2, rfl, ?_⟩
  simp [dropBody, DropWorker.drop, h2]

/-- Claim C10: when a clone of the producer endpoint made through the
handle is still alive at drop time (two live senders), the drop does not
disconnect the channel: one sender remains, a non-blocking poll of the
drained channel reports Empty rather than Disconnected, and a blocking
receive keeps blocking rather than resolving as disconnected; only after
the cloned sender is also destroyed does the receive resolve as
disconnected. -/
theorem c10_clone_delays_disconnect (s : Sys Nat) (hclone : s.chan.senders = 2) :
    0 < (dropBody s).chan.senders ∧
    ((dropBody s).chan.queue = [] →
      (Chan.try_recv (dropBody s).chan).1 = Except.error TryRecvError.empty ∧
      (recv_data (dropBody s).chan).1 = RecvDataOutcome.blocked) ∧
    (dropClonedSender (dropBody s).chan).senders = 0 ∧
    ((dropBody s).chan.queue = [] →
      (recv_data (dropClonedSender (dropBody s).chan)).1 = RecvDataOutcome.ret) := by
  have hs : (dropBody s).chan.senders = 1 := by
    simp [dropBody, DropWorker.drop, hclone]
  refine ⟨by rw [hs]; exact Nat.one_pos, ?_, ?_, ?_⟩
  · intro hq
    constructor
    · simp [Chan.try_recv, hq, hs]
    · simp [recv_data, hq, hs]
  · simp [dropClonedSender, hs]
  · intro hq
    simp [recv_data, dropClonedSender, hq, hs]

/-- Claim C10, witness: clone the sender through a fresh handle, drop the
handle: one sender remains alive and the empty channel still reports Empty,
not Disconnected. -/
theorem c10_witness :
    0 < (dropBody (applyEvent (DropWorker.new Nat)
          PreDropEvent.cloneSender)).chan.senders ∧
    (Chan.try_recv (dropBody (applyEvent (DropWorker.new Nat)
          PreDropEvent.cloneSender)).chan).1 = Except.error TryRecvError.empty :=
  ⟨(c10_clone_delays_disconnect
      (applyEvent (DropWorker.new Nat) PreDropEvent.cloneSender) rfl).1,
   ((c10_clone_delays_disconnect
      (applyEvent (DropWorker.new Nat) PreDropEvent.cloneSender) rfl).2.1 rfl).1⟩
